import Mathlib

/-!
Shallow embedding of the drying-simulation core of `app_industrial.py`
(`run_industrial_simulation`, `calculate_kpis`, and the sensitivity-sweep
loop), together with theorems settling the specification claims.

Modelling conventions:
* Python floats are modelled as real numbers (`ℝ`); `x ** y` is `Real.rpow`
  and `np.exp` is `Real.exp`.
* Lean's real division takes `x / 0 = 0`.  The only division the source
  performs whose denominator can be zero on a reachable input is
  `60 / params['tiempo_residencia']` in `calculate_kpis`, where Python
  raises `ZeroDivisionError`; `calculate_kpis` is therefore embedded as an
  `Except` that errors exactly when `tiempo_residencia = 0`.  `pandas`
  `mean`/`max` over an empty column return `NaN` without raising; they are
  embedded as the real-division convention's `0` (documented at `pd_mean`
  and `pd_max`).  The division by `final_total_mass` inside the drying
  model is proved positive on every input the claims range over.
-/

/-- Input parameter record, mirroring the `params` dict built from the
sidebar sliders (`peso_humedo`, `espesor`, `temperatura`, `velocidad_aire`,
`tiempo_residencia`, `humedad_aire`, `num_lineas`). -/
structure Params where
  peso_humedo : ℝ
  espesor : ℝ
  temperatura : ℝ
  velocidad_aire : ℝ
  tiempo_residencia : ℝ
  humedad_aire : ℝ
  num_lineas : ℕ

/-- Documented slider domains of every field (spec §3): weights in
[200,300], thickness [2,5], temperature [80,180], air speed [0.5,3],
residence time [5,20], inlet humidity [10,80], lines an integer in
[2,12]. -/
def ValidParams (p : Params) : Prop :=
  200 ≤ p.peso_humedo ∧ p.peso_humedo ≤ 300 ∧
  2 ≤ p.espesor ∧ p.espesor ≤ 5 ∧
  80 ≤ p.temperatura ∧ p.temperatura ≤ 180 ∧
  0.5 ≤ p.velocidad_aire ∧ p.velocidad_aire ≤ 3 ∧
  5 ≤ p.tiempo_residencia ∧ p.tiempo_residencia ≤ 20 ∧
  10 ≤ p.humedad_aire ∧ p.humedad_aire ≤ 80 ∧
  2 ≤ p.num_lineas ∧ p.num_lineas ≤ 12

/-- Output table of `run_industrial_simulation`: the two columns of the
returned `pd.DataFrame` (`'Línea'` names and `'Humedad Residual (%)'`). -/
structure SimResult where
  lineas : List String
  humedades : List ℝ

/-- KPI dictionary returned by `calculate_kpis`. -/
structure KPIs where
  humedad_promedio : ℝ
  costo_energetico : ℝ
  tasa_evaporacion : ℝ
  riesgo_calidad : String

/-- Constant `DRY_WEIGHT_G = 50.0`. -/
def DRY_WEIGHT_G : ℝ := 50.0

/-- Constant `BASE_TEMP_C = 90.0`. -/
def BASE_TEMP_C : ℝ := 90.0

/-- Constant `BASE_AIR_SPEED_MS = 1.5`. -/
def BASE_AIR_SPEED_MS : ℝ := 1.5

/-- Source: `initial_water_mass = params['peso_humedo'] - DRY_WEIGHT_G`. -/
noncomputable def initial_water_mass (p : Params) : ℝ :=
  p.peso_humedo - DRY_WEIGHT_G

/-- Source: `temp_factor = (params['temperatura'] / BASE_TEMP_C)**1.5`. -/
noncomputable def temp_factor (p : Params) : ℝ :=
  (p.temperatura / BASE_TEMP_C) ^ (1.5 : ℝ)

/-- Source: `airspeed_factor = (params['velocidad_aire'] / BASE_AIR_SPEED_MS)**0.8`. -/
noncomputable def airspeed_factor (p : Params) : ℝ :=
  (p.velocidad_aire / BASE_AIR_SPEED_MS) ^ (0.8 : ℝ)

/-- Source: `drying_rate_base = temp_factor * airspeed_factor`. -/
noncomputable def drying_rate_base (p : Params) : ℝ :=
  temp_factor p * airspeed_factor p

/-- Source: `rh_factor = 1 - (params['humedad_aire'] / 100)`. -/
noncomputable def rh_factor (p : Params) : ℝ :=
  1 - p.humedad_aire / 100

/-- Source: `water_evaporated_base = initial_water_mass * (1 - np.exp(-0.05 *
params['tiempo_residencia'] * drying_rate_base * rh_factor))`. -/
noncomputable def water_evaporated_base (p : Params) : ℝ :=
  initial_water_mass p *
    (1 - Real.exp (-0.05 * p.tiempo_residencia * drying_rate_base p * rh_factor p))

/-- Per-line non-uniformity factor: the `if i == 0 or i == num_lineas - 1
... elif i == 1 or i == num_lineas - 2 ... else ...` chain inside the
simulation loop (checked in source order, so the outermost rule wins when
the index sets overlap). -/
noncomputable def uniformity_factor (n i : ℕ) : ℝ :=
  if i = 0 ∨ i = n - 1 then 0.85
  else if i = 1 ∨ i = n - 2 then 0.95
  else 1.0

/-- Body of the per-line loop: `water_evaporated_line = water_evaporated_base
* uniformity_factor`, `final_water_mass = initial_water_mass -
water_evaporated_line`, `final_total_mass = final_water_mass + DRY_WEIGHT_G`,
`final_humidity = (final_water_mass / final_total_mass) * 100`, appended as
`max(0, final_humidity)`. -/
noncomputable def linea_humedad (p : Params) (i : ℕ) : ℝ :=
  let water_evaporated_line := water_evaporated_base p * uniformity_factor p.num_lineas i
  let final_water_mass := initial_water_mass p - water_evaporated_line
  let final_total_mass := final_water_mass + DRY_WEIGHT_G
  max 0 (final_water_mass / final_total_mass * 100)

/-- Embedding of `run_industrial_simulation`: the returned DataFrame holds
the line names `'Línea {i+1}'` and the list built by the per-line loop. -/
noncomputable def run_industrial_simulation (p : Params) : SimResult :=
  { lineas := (List.range p.num_lineas).map (fun i => "Línea " ++ toString (i + 1))
    humedades := (List.range p.num_lineas).map (linea_humedad p) }

/-- Embedding of `pandas` column `.mean()`: sum over length.  On an empty
column pandas yields `NaN` (it does not raise); here the empty case
degenerates to `0` via the real-division convention. -/
noncomputable def pd_mean (l : List ℝ) : ℝ := l.sum / l.length

/-- Embedding of `pandas` column `.max()`: the maximum of a non-empty
column; on an empty column pandas yields `NaN` (it does not raise),
embedded here as `0`. -/
noncomputable def pd_max (l : List ℝ) : ℝ :=
  match l with
  | [] => 0
  | x :: xs => xs.foldl max x

/-- Constant `AIR_DENSITY_KGM3 = 1.0`. -/
def AIR_DENSITY_KGM3 : ℝ := 1.0

/-- Constant `AIR_SPECIFIC_HEAT_J_KGK = 1005`. -/
def AIR_SPECIFIC_HEAT_J_KGK : ℝ := 1005

/-- Constant `PRICE_KWH = 0.15`. -/
def PRICE_KWH : ℝ := 0.15

/-- Arithmetic body of `calculate_kpis`, line for line from the source.
`humedades` is the `'Humedad Residual (%)'` column of `df_results`. -/
noncomputable def calculate_kpis_core (p : Params) (humedades : List ℝ) : KPIs :=
  let initial_water_kg := (p.peso_humedo - 50) / 1000
  let final_water_kg_avg := (pd_mean humedades / 100) * p.peso_humedo / 1000
  let evaporated_water_kg_per_piece := initial_water_kg - final_water_kg_avg
  let pieces_per_hour := 60 / p.tiempo_residencia * p.num_lineas
  let evaporation_rate_kgh := evaporated_water_kg_per_piece * pieces_per_hour
  let dryer_cross_section_m2 := (p.num_lineas : ℝ) * 0.5
  let air_flow_m3s := p.velocidad_aire * dryer_cross_section_m2
  let air_mass_kgs := air_flow_m3s * AIR_DENSITY_KGM3
  let power_heating_kw := air_mass_kgs * AIR_SPECIFIC_HEAT_J_KGK * (p.temperatura - 25) / 1000
  let power_fan_kw := 2.5 * p.velocidad_aire ^ (3 : ℕ) * p.num_lineas
  let total_power_kw := power_heating_kw + power_fan_kw
  let energy_cost_per_hour := total_power_kw * PRICE_KWH
  let risk :=
    if 160 < p.temperatura ∨ 12 < pd_max humedades then "Alto"
    else if 140 < p.temperatura ∨ 9 < pd_max humedades then "Medio"
    else "Bajo"
  { humedad_promedio := pd_mean humedades
    costo_energetico := energy_cost_per_hour
    tasa_evaporacion := evaporation_rate_kgh
    riesgo_calidad := risk }

/-- Embedding of `calculate_kpis`.  The source computes
`pieces_per_hour = (60 / params['tiempo_residencia']) * params['num_lineas']`
with no guard, so Python raises `ZeroDivisionError` exactly when
`tiempo_residencia == 0`; on every other input the call returns the KPI
dict normally (there is no raise statement of any kind in the source). -/
noncomputable def calculate_kpis (p : Params) (humedades : List ℝ) :
    Except String KPIs :=
  if p.tiempo_residencia = 0 then .error "ZeroDivisionError"
  else .ok (calculate_kpis_core p humedades)

/-- Clone-and-override step of the sensitivity loop for the swept variable
`'temperatura'`: `temp_params = params.copy(); temp_params[key] = val`. -/
def setTemp (p : Params) (v : ℝ) : Params := { p with temperatura := v }

/-- Source: `np.linspace(lo, hi, n)` — `n` evenly spaced points from `lo`
to `hi`, both endpoints included. -/
noncomputable def linspace (lo hi : ℝ) (n : ℕ) : List ℝ :=
  (List.range n).map (fun i : ℕ => lo + (i : ℝ) * (hi - lo) / ((n : ℝ) - 1))

/-- Sensitivity sweep over `'temperatura'`: for each swept value, rerun
`run_industrial_simulation` on the overridden parameters and take the mean
of the `'Humedad Residual (%)'` column; the plot pairs each swept value
with that mean. -/
noncomputable def sweep_temperatura (p : Params) (lo hi : ℝ) (n : ℕ) :
    List (ℝ × ℝ) :=
  (linspace lo hi n).map
    (fun v => (v, pd_mean (run_industrial_simulation (setTemp p v)).humedades))

/-- Reference scenario of spec §8: `wetWeightGrams=240, thickness 3,
temperatureC=135, airSpeedMs=1.5, residenceTimeMin=10,
inletAirHumidityPct=50, numLines=6`. -/
def p_ref : Params := ⟨240, 3, 135, 1.5, 10, 50, 6⟩

/-- Helper: a `foldl max` stays below any bound dominating the seed and
every element. -/
lemma foldl_max_le (xs : List ℝ) (a c : ℝ) (ha : a ≤ c)
    (h : ∀ x ∈ xs, x ≤ c) : xs.foldl max a ≤ c := by
  induction xs generalizing a with
  | nil => exact ha
  | cons y ys ih =>
    exact ih (max a y) (max_le ha (h y (List.mem_cons_self y ys)))
      (fun x hx => h x (List.mem_cons_of_mem y hx))

/-- Helper: `pd_max` of a list bounded by `c ≥ 0` is at most `c`. -/
lemma pd_max_le (l : List ℝ) (c : ℝ) (hc : 0 ≤ c) (h : ∀ x ∈ l, x ≤ c) :
    pd_max l ≤ c := by
  cases l with
  | nil => simpa [pd_max] using hc
  | cons x xs =>
    exact foldl_max_le xs x c (h x (List.mem_cons_self x xs))
      (fun y hy => h y (List.mem_cons_of_mem x hy))

/-- C1: for every ProcessParameters whose fields lie in the documented
domains, `simulate` returns a sequence of exactly `numLines` line results,
and every line's `residualMoisturePct` is at least 0. -/
theorem simulate_length_and_moisture_nonneg (p : Params) (hv : ValidParams p) :
    (run_industrial_simulation p).humedades.length = p.num_lineas ∧
    ∀ x ∈ (run_industrial_simulation p).humedades, 0 ≤ x := by
  constructor
  · simp [run_industrial_simulation]
  · intro x hx
    simp only [run_industrial_simulation, List.mem_map] at hx
    obtain ⟨i, -, rfl⟩ := hx
    exact le_max_left 0 _

/-- Witness for C1 at the reference scenario. -/
theorem simulate_length_and_moisture_nonneg_witness :
    ValidParams p_ref ∧ (run_industrial_simulation p_ref).humedades.length = 6 := by
  have hv : ValidParams p_ref := by norm_num [ValidParams, p_ref]
  exact ⟨hv, (simulate_length_and_moisture_nonneg p_ref hv).1⟩

/-- C5: the uniformity factor follows the source's first-match precedence:
0.85 on the outermost indices, else 0.95 on the second-from-edge indices,
else 1.00; with `numLines = 2` both lines get 0.85 and with `numLines = 3`
the middle line gets 0.95. -/
theorem uniformity_factor_precedence (n i : ℕ) (hn : 2 ≤ n) (hi : i < n) :
    (i = 0 ∨ i = n - 1 → uniformity_factor n i = 0.85) ∧
    (¬(i = 0 ∨ i = n - 1) → (i = 1 ∨ i = n - 2) →
      uniformity_factor n i = 0.95) ∧
    (¬(i = 0 ∨ i = n - 1) → ¬(i = 1 ∨ i = n - 2) →
      uniformity_factor n i = 1.0) ∧
    uniformity_factor 2 0 = 0.85 ∧ uniformity_factor 2 1 = 0.85 ∧
    uniformity_factor 3 1 = 0.95 := by
  refine ⟨?_, ?_, ?_, ?_, ?_, ?_⟩
  · intro h; simp [uniformity_factor, h]
  · intro h1 h2; simp [uniformity_factor, h1, h2]
  · intro h1 h2; simp [uniformity_factor, h1, h2]
  · norm_num [uniformity_factor]
  · norm_num [uniformity_factor]
  · norm_num [uniformity_factor]

/-- Witness for C5 at `n = 4`, `i = 1`. -/
theorem uniformity_factor_precedence_witness :
    (2 ≤ 4 ∧ 1 < 4) ∧ uniformity_factor 4 1 = 0.95 := by
  refine ⟨⟨by norm_num, by norm_num⟩, ?_⟩
  exact (uniformity_factor_precedence 4 1 (by norm_num) (by norm_num)).2.1
    (by norm_num) (Or.inl rfl)

/-- C9: `thicknessMm` (`espesor`) never influences an output: two parameter
records that agree on every other field produce identical simulation
tables and identical KPI results. -/
theorem espesor_noninterference (p₁ p₂ : Params)
    (h1 : p₁.peso_humedo = p₂.peso_humedo)
    (h2 : p₁.temperatura = p₂.temperatura)
    (h3 : p₁.velocidad_aire = p₂.velocidad_aire)
    (h4 : p₁.tiempo_residencia = p₂.tiempo_residencia)
    (h5 : p₁.humedad_aire = p₂.humedad_aire)
    (h6 : p₁.num_lineas = p₂.num_lineas) :
    run_industrial_simulation p₁ = run_industrial_simulation p₂ ∧
    ∀ humedades, calculate_kpis p₁ humedades = calculate_kpis p₂ humedades := by
  obtain ⟨a₁, b₁, c₁, d₁, e₁, f₁, g₁⟩ := p₁
  obtain ⟨a₂, b₂, c₂, d₂, e₂, f₂, g₂⟩ := p₂
  simp only at h1 h2 h3 h4 h5 h6
  subst h1; subst h2; subst h3; subst h4; subst h5; subst h6
  exact ⟨rfl, fun _ => rfl⟩

/-- Witness for C9: the reference scenario with thickness 3 versus 4.5. -/
theorem espesor_noninterference_witness :
    run_industrial_simulation p_ref =
      run_industrial_simulation ⟨240, 4.5, 135, 1.5, 10, 50, 6⟩ ∧
    calculate_kpis p_ref [] =
      calculate_kpis ⟨240, 4.5, 135, 1.5, 10, 50, 6⟩ [] := by
  have h := espesor_noninterference p_ref ⟨240, 4.5, 135, 1.5, 10, 50, 6⟩
    rfl rfl rfl rfl rfl rfl
  exact ⟨h.1, h.2 []⟩

/-- C2: `calculate_kpis` classifies risk by the ordered first-match rules
on `temperatura` and the maximum residual moisture: `Alto` when
`temperatura > 160` or the maximum exceeds 12, else `Medio` when
`temperatura > 140` or the maximum exceeds 9, else `Bajo`; in particular
any valid parameters with `numLines = 6` and `temperatura = 161` classify
as `Alto`, and `temperatura = 135` with every line moisture at most 9
classifies as `Bajo`. -/
theorem risk_classification_rules (p : Params) (humedades : List ℝ)
    (hv : ValidParams p) :
    calculate_kpis p humedades = .ok (calculate_kpis_core p humedades) ∧
    (calculate_kpis_core p humedades).riesgo_calidad =
      (if 160 < p.temperatura ∨ 12 < pd_max humedades then "Alto"
       else if 140 < p.temperatura ∨ 9 < pd_max humedades then "Medio"
       else "Bajo") ∧
    (p.num_lineas = 6 → p.temperatura = 161 →
      (calculate_kpis_core p humedades).riesgo_calidad = "Alto") ∧
    (p.temperatura = 135 → (∀ x ∈ humedades, x ≤ 9) →
      (calculate_kpis_core p humedades).riesgo_calidad = "Bajo") := by
  obtain ⟨-, -, -, -, -, -, -, -, ht5, -, -, -, -, -⟩ := hv
  refine ⟨?_, rfl, ?_, ?_⟩
  · rw [calculate_kpis, if_neg (by linarith)]
  · intro _ h161
    simp only [calculate_kpis_core, h161]
    norm_num
  · intro h135 hall
    have hmax : pd_max humedades ≤ 9 := pd_max_le humedades 9 (by norm_num) hall
    simp only [calculate_kpis_core, h135]
    rw [if_neg (by push_neg; constructor <;> [norm_num; linarith]),
      if_neg (by push_neg; constructor <;> [norm_num; linarith])]

/-- Witness for C2: the reference scenario at `temperatura = 161` with a
concrete moisture column. -/
theorem risk_classification_rules_witness :
    ValidParams ⟨240, 3, 161, 1.5, 10, 50, 6⟩ ∧
    (calculate_kpis_core ⟨240, 3, 161, 1.5, 10, 50, 6⟩ [8, 7]).riesgo_calidad
      = "Alto" := by
  have hv : ValidParams ⟨240, 3, 161, 1.5, 10, 50, 6⟩ := by
    norm_num [ValidParams]
  exact ⟨hv, (risk_classification_rules _ [8, 7] hv).2.2.1 rfl rfl⟩

/-- Helper: with `peso_humedo = 50` the initial water mass is zero and
every per-line residual moisture collapses to 0. -/
lemma linea_humedad_of_peso50 (p : Params) (hp : p.peso_humedo = 50)
    (i : ℕ) : linea_humedad p i = 0 := by
  have h0 : initial_water_mass p = 0 := by
    rw [initial_water_mass, hp]; norm_num [DRY_WEIGHT_G]
  simp [linea_humedad, water_evaporated_base, h0]

/-- C7 counterexample: at `wetWeightGrams = 50` (zero initial water) the
code raises nothing — `simulate` returns a normal six-line table, every
line's residual moisture computing to 0. -/
theorem wet_weight_50_returns_normally :
    (run_industrial_simulation ⟨50, 3, 135, 1.5, 10, 50, 6⟩).humedades
      = [0, 0, 0, 0, 0, 0] := by
  have h : ∀ i, linea_humedad ⟨50, 3, 135, 1.5, 10, 50, 6⟩ i = 0 :=
    fun i => linea_humedad_of_peso50 _ rfl i
  simp [run_industrial_simulation, h, List.range_succ]

/-- C7 amended: the core performs no input validation.  `simulate` with
`wetWeightGrams = 50` returns `numLines` results, all with residual
moisture 0, instead of raising InvalidInput; the only failure is the
unguarded `ZeroDivisionError` in `calculate_kpis`'s pieces-per-hour
division when `residenceTimeMin = 0`, and every other input returns the
KPI dict normally. -/
theorem no_input_validation_in_core :
    (∀ p : Params, p.peso_humedo = 50 →
      (run_industrial_simulation p).humedades.length = p.num_lineas ∧
      ∀ x ∈ (run_industrial_simulation p).humedades, x = 0) ∧
    (∀ (p : Params) (humedades : List ℝ), p.tiempo_residencia = 0 →
      calculate_kpis p humedades = .error "ZeroDivisionError") ∧
    (∀ (p : Params) (humedades : List ℝ), p.tiempo_residencia ≠ 0 →
      calculate_kpis p humedades = .ok (calculate_kpis_core p humedades)) := by
  refine ⟨fun p hp => ⟨by simp [run_industrial_simulation], ?_⟩,
    fun p humedades ht => by rw [calculate_kpis, if_pos ht],
    fun p humedades ht => by rw [calculate_kpis, if_neg ht]⟩
  intro x hx
  simp only [run_industrial_simulation, List.mem_map] at hx
  obtain ⟨i, -, rfl⟩ := hx
  exact linea_humedad_of_peso50 p hp i

/-- Witness for C7's amended statement at concrete inputs. -/
theorem no_input_validation_in_core_witness :
    (run_industrial_simulation ⟨50, 3, 135, 1.5, 10, 50, 6⟩).humedades.length = 6 ∧
    calculate_kpis ⟨240, 3, 135, 1.5, 0, 50, 6⟩ [] = .error "ZeroDivisionError" ∧
    calculate_kpis p_ref [] = .ok (calculate_kpis_core p_ref []) := by
  refine ⟨(no_input_validation_in_core.1 ⟨50, 3, 135, 1.5, 10, 50, 6⟩ rfl).1,
    no_input_validation_in_core.2.1 ⟨240, 3, 135, 1.5, 0, 50, 6⟩ [] rfl,
    no_input_validation_in_core.2.2 p_ref [] (by norm_num [p_ref])⟩

/-- C8 counterexample: `calculate_kpis` on the reference scenario with an
empty result column returns a KPI report (risk `Bajo`, average 0) instead
of failing with EmptyResultSet. -/
theorem empty_results_accepted :
    calculate_kpis p_ref [] = .ok ⟨0, 82.215, 6.84, "Bajo"⟩ := by
  rw [calculate_kpis, if_neg (by norm_num [p_ref])]
  have hmean : pd_mean ([] : List ℝ) = 0 := by simp [pd_mean]
  have hmax : pd_max ([] : List ℝ) = 0 := by simp [pd_max]
  simp only [calculate_kpis_core, hmean, hmax, p_ref, AIR_DENSITY_KGM3,
    AIR_SPECIFIC_HEAT_J_KGK, PRICE_KWH]
  norm_num

/-- C8 amended: `calculate_kpis` performs no emptiness check: whenever the
residence time is non-zero it maps an empty result column to a normal KPI
report whose average moisture degenerates to the empty-mean value
(`NaN` in pandas, 0 in this embedding). -/
theorem empty_results_yield_report (p : Params)
    (ht : p.tiempo_residencia ≠ 0) :
    calculate_kpis p [] = .ok (calculate_kpis_core p []) ∧
    (calculate_kpis_core p []).humedad_promedio = 0 := by
  refine ⟨by rw [calculate_kpis, if_neg ht], ?_⟩
  simp [calculate_kpis_core, pd_mean]

/-- Witness for C8's amended statement at the reference scenario. -/
theorem empty_results_yield_report_witness :
    calculate_kpis p_ref [] = .ok (calculate_kpis_core p_ref []) ∧
    (calculate_kpis_core p_ref []).humedad_promedio = 0 :=
  empty_results_yield_report p_ref (by norm_num [p_ref])

/-- Helper: the uniformity factor only takes the three source values. -/
lemma uf_cases (n i : ℕ) : uniformity_factor n i = 0.85 ∨
    uniformity_factor n i = 0.95 ∨ uniformity_factor n i = 1.0 := by
  unfold uniformity_factor
  split_ifs <;> simp

/-- Helper: the uniformity factor is positive. -/
lemma uf_pos (n i : ℕ) : 0 < uniformity_factor n i := by
  rcases uf_cases n i with h | h | h <;> rw [h] <;> norm_num

/-- Helper: the uniformity factor is at most the interior value 1. -/
lemma uf_le_one (n i : ℕ) : uniformity_factor n i ≤ 1 := by
  rcases uf_cases n i with h | h | h <;> rw [h] <;> norm_num

/-- Helper: the edge value 0.85 is the least uniformity factor. -/
lemma uf_ge (n i : ℕ) : 0.85 ≤ uniformity_factor n i := by
  rcases uf_cases n i with h | h | h <;> rw [h] <;> norm_num

/-- Helper: the uniformity factor is mirror-symmetric about the centre. -/
lemma uf_symm (n i : ℕ) (h : i < n) :
    uniformity_factor n (n - 1 - i) = uniformity_factor n i := by
  unfold uniformity_factor
  split_ifs <;> first | rfl | omega

/-- Helper: `linea_humedad` with its local bindings expanded. -/
lemma linea_humedad_def (p : Params) (i : ℕ) :
    linea_humedad p i = max 0
      ((initial_water_mass p -
          water_evaporated_base p * uniformity_factor p.num_lineas i) /
        (initial_water_mass p -
          water_evaporated_base p * uniformity_factor p.num_lineas i +
          DRY_WEIGHT_G) * 100) := rfl

/-- Helper: positive initial water mass above the dry-mass constant. -/
lemma initial_water_pos (p : Params) (h50 : 50 < p.peso_humedo) :
    0 < initial_water_mass p := by
  unfold initial_water_mass DRY_WEIGHT_G
  linarith

/-- Helper: the relative-humidity factor is positive below saturation. -/
lemma rh_factor_pos (p : Params) (hh : p.humedad_aire < 100) :
    0 < rh_factor p := by
  unfold rh_factor
  linarith

/-- Helper: the temperature factor is positive at positive temperature. -/
lemma temp_factor_pos (p : Params) (ht : 0 < p.temperatura) :
    0 < temp_factor p := by
  unfold temp_factor BASE_TEMP_C
  exact Real.rpow_pos_of_pos (div_pos ht (by norm_num)) _

/-- Helper: the air-speed factor is positive at positive air speed. -/
lemma airspeed_factor_pos (p : Params) (hva : 0 < p.velocidad_aire) :
    0 < airspeed_factor p := by
  unfold airspeed_factor BASE_AIR_SPEED_MS
  exact Real.rpow_pos_of_pos (div_pos hva (by norm_num)) _

/-- Helper: the base drying rate is positive. -/
lemma drying_rate_base_pos (p : Params) (ht : 0 < p.temperatura)
    (hva : 0 < p.velocidad_aire) : 0 < drying_rate_base p :=
  mul_pos (temp_factor_pos p ht) (airspeed_factor_pos p hva)

/-- Helper: the exponent fed to `exp` is negative on positive inputs. -/
lemma exponent_neg (p : Params) (ht : 0 < p.temperatura)
    (hva : 0 < p.velocidad_aire) (htr : 0 < p.tiempo_residencia)
    (hh : p.humedad_aire < 100) :
    -0.05 * p.tiempo_residencia * drying_rate_base p * rh_factor p < 0 := by
  have h1 := drying_rate_base_pos p ht hva
  have h2 := rh_factor_pos p hh
  nlinarith [mul_pos (mul_pos htr h1) h2]

/-- Helper: the base evaporated water is strictly between 0 and the
initial water mass (the model never evaporates all the water). -/
lemma water_evaporated_base_bounds (p : Params) (h50 : 50 < p.peso_humedo)
    (ht : 0 < p.temperatura) (hva : 0 < p.velocidad_aire)
    (htr : 0 < p.tiempo_residencia) (hh : p.humedad_aire < 100) :
    0 < water_evaporated_base p ∧
    water_evaporated_base p < initial_water_mass p := by
  have hm0 := initial_water_pos p h50
  have hneg := exponent_neg p ht hva htr hh
  have hE1 : Real.exp (-0.05 * p.tiempo_residencia * drying_rate_base p *
      rh_factor p) < 1 := Real.exp_lt_one_iff.2 hneg
  have hE0 : 0 < Real.exp (-0.05 * p.tiempo_residencia * drying_rate_base p *
      rh_factor p) := Real.exp_pos _
  unfold water_evaporated_base
  constructor
  · exact mul_pos hm0 (by linarith)
  · nlinarith [mul_pos hm0 hE0]

/-- Helper: every line keeps a positive final water mass. -/
lemma final_water_pos (p : Params) (h50 : 50 < p.peso_humedo)
    (ht : 0 < p.temperatura) (hva : 0 < p.velocidad_aire)
    (htr : 0 < p.tiempo_residencia) (hh : p.humedad_aire < 100) (i : ℕ) :
    0 < initial_water_mass p -
      water_evaporated_base p * uniformity_factor p.num_lineas i := by
  obtain ⟨hwp, hwl⟩ := water_evaporated_base_bounds p h50 ht hva htr hh
  have h1 : water_evaporated_base p * uniformity_factor p.num_lineas i ≤
      water_evaporated_base p * 1 :=
    mul_le_mul_of_nonneg_left (uf_le_one _ _) hwp.le
  rw [mul_one] at h1
  linarith

/-- Helper: the wet-basis moisture percentage `x / (x + c) * 100` is
strictly increasing in the water mass `x` while `x + c` stays positive. -/
lemma ratio_lt_ratio (a b c : ℝ) (hc : 0 < c) (ha : 0 < a + c)
    (hb : 0 < b + c) (hab : a < b) :
    a / (a + c) * 100 < b / (b + c) * 100 := by
  have h : a / (a + c) < b / (b + c) := by
    rw [div_lt_div_iff₀ ha hb]
    nlinarith
  linarith

/-- Helper: weak version of `ratio_lt_ratio`. -/
lemma ratio_le_ratio (a b c : ℝ) (hc : 0 < c) (ha : 0 < a + c)
    (hb : 0 < b + c) (hab : a ≤ b) :
    a / (a + c) * 100 ≤ b / (b + c) * 100 := by
  have h : a / (a + c) ≤ b / (b + c) := by
    rw [div_le_div_iff₀ ha hb]
    nlinarith
  linarith

/-- Helper: overriding the temperature sets exactly that field. -/
@[simp] lemma setTemp_temperatura (p : Params) (v : ℝ) :
    (setTemp p v).temperatura = v := rfl

/-- Helper: overriding the temperature leaves the line count unchanged. -/
@[simp] lemma setTemp_num_lineas (p : Params) (v : ℝ) :
    (setTemp p v).num_lineas = p.num_lineas := rfl

/-- Helper: overriding the temperature leaves the initial water mass
unchanged. -/
@[simp] lemma initial_water_mass_setTemp (p : Params) (v : ℝ) :
    initial_water_mass (setTemp p v) = initial_water_mass p := rfl

/-- Helper: overriding the temperature of a record by its own temperature
is the identity. -/
lemma setTemp_self (p : Params) : setTemp p p.temperatura = p := rfl

/-- Helper: a clamped moisture ratio strictly decreases when the
evaporated base water strictly increases, as long as both final water
masses stay positive. -/
lemma clamped_ratio_lt (m w₁ w₂ u c : ℝ) (hc : 0 < c) (hu : 0 < u)
    (hw : w₁ < w₂) (h₁ : 0 < m - w₁ * u) (h₂ : 0 < m - w₂ * u) :
    max 0 ((m - w₂ * u) / (m - w₂ * u + c) * 100) <
    max 0 ((m - w₁ * u) / (m - w₁ * u + c) * 100) := by
  have ha : m - w₂ * u < m - w₁ * u := by nlinarith
  have hx : (0:ℝ) ≤ (m - w₂ * u) / (m - w₂ * u + c) * 100 :=
    le_of_lt (mul_pos (div_pos h₂ (by linarith)) (by norm_num))
  have hy : (0:ℝ) ≤ (m - w₁ * u) / (m - w₁ * u + c) * 100 :=
    le_of_lt (mul_pos (div_pos h₁ (by linarith)) (by norm_num))
  rw [max_eq_right hx, max_eq_right hy]
  exact ratio_lt_ratio _ _ _ hc (by linarith) (by linarith) ha

/-- Helper: increasing only the temperature strictly lowers each line's
residual moisture (the drying rate strictly increases and the ratio
`x/(x+50)` is strictly monotone in the remaining water `x`). -/
lemma linea_humedad_lt_of_temp_lt (p : Params) (h50 : 50 < p.peso_humedo)
    (hva : 0 < p.velocidad_aire) (htr : 0 < p.tiempo_residencia)
    (hh : p.humedad_aire < 100) (T₁ T₂ : ℝ) (hT1 : 0 < T₁) (h12 : T₁ < T₂)
    (i : ℕ) :
    linea_humedad (setTemp p T₂) i < linea_humedad (setTemp p T₁) i := by
  have hT2 : 0 < T₂ := lt_trans hT1 h12
  have h50₁ : 50 < (setTemp p T₁).peso_humedo := h50
  have h50₂ : 50 < (setTemp p T₂).peso_humedo := h50
  have hva₁ : 0 < (setTemp p T₁).velocidad_aire := hva
  have hva₂ : 0 < (setTemp p T₂).velocidad_aire := hva
  have htr₁ : 0 < (setTemp p T₁).tiempo_residencia := htr
  have htr₂ : 0 < (setTemp p T₂).tiempo_residencia := htr
  have hh₁ : (setTemp p T₁).humedad_aire < 100 := hh
  have hh₂ : (setTemp p T₂).humedad_aire < 100 := hh
  have htf : temp_factor (setTemp p T₁) < temp_factor (setTemp p T₂) := by
    unfold temp_factor
    simp only [setTemp_temperatura]
    have h90 : (0:ℝ) < BASE_TEMP_C := by norm_num [BASE_TEMP_C]
    exact Real.rpow_lt_rpow (div_pos hT1 h90).le
      ((div_lt_div_right h90).2 h12) (by norm_num)
  have haf : airspeed_factor (setTemp p T₂) = airspeed_factor (setTemp p T₁) := rfl
  have haf_pos : 0 < airspeed_factor (setTemp p T₁) :=
    airspeed_factor_pos _ hva₁
  have hdrb : drying_rate_base (setTemp p T₁) < drying_rate_base (setTemp p T₂) := by
    unfold drying_rate_base
    rw [haf]
    exact mul_lt_mul_of_pos_right htf haf_pos
  have hrh : 0 < rh_factor (setTemp p T₁) := rh_factor_pos _ hh₁
  have hrh_eq : rh_factor (setTemp p T₂) = rh_factor (setTemp p T₁) := rfl
  have htr_eq : (setTemp p T₂).tiempo_residencia =
      (setTemp p T₁).tiempo_residencia := rfl
  have hexp : -0.05 * (setTemp p T₂).tiempo_residencia *
        drying_rate_base (setTemp p T₂) * rh_factor (setTemp p T₂) <
      -0.05 * (setTemp p T₁).tiempo_residencia *
        drying_rate_base (setTemp p T₁) * rh_factor (setTemp p T₁) := by
    rw [hrh_eq, htr_eq]
    nlinarith [mul_pos (mul_pos htr₁ (sub_pos.2 hdrb)) hrh]
  have hm0 : 0 < initial_water_mass (setTemp p T₁) :=
    initial_water_pos _ h50₁
  have hE := Real.exp_lt_exp.2 hexp
  have hweb : water_evaporated_base (setTemp p T₁) <
      water_evaporated_base (setTemp p T₂) := by
    unfold water_evaporated_base
    rw [initial_water_mass_setTemp, initial_water_mass_setTemp]
    have hm0' : 0 < initial_water_mass p := initial_water_pos _ h50
    nlinarith [mul_pos hm0' (sub_pos.2 hE)]
  have hfw₁ := final_water_pos _ h50₁ hT1 hva₁ htr₁ hh₁ i
  have hfw₂ := final_water_pos _ h50₂ hT2 hva₂ htr₂ hh₂ i
  rw [linea_humedad_def, linea_humedad_def]
  simp only [initial_water_mass_setTemp, setTemp_num_lineas] at hfw₁ hfw₂ ⊢
  exact clamped_ratio_lt (initial_water_mass p)
    (water_evaporated_base (setTemp p T₁)) (water_evaporated_base (setTemp p T₂))
    (uniformity_factor p.num_lineas i) DRY_WEIGHT_G
    (by norm_num [DRY_WEIGHT_G]) (uf_pos _ _) hweb hfw₁ hfw₂

/-- Helper: a strict pointwise bound gives a strict bound on mapped sums
over a non-empty list. -/
lemma sum_map_lt (l : List ℕ) (f g : ℕ → ℝ) (hne : l ≠ [])
    (h : ∀ a ∈ l, f a < g a) : (l.map f).sum < (l.map g).sum := by
  induction l with
  | nil => exact absurd rfl hne
  | cons x xs ih =>
    rcases eq_or_ne xs [] with rfl | hxs
    · simpa using h x (by simp)
    · have h1 := h x (List.mem_cons_self x xs)
      have h2 := ih hxs (fun a ha => h a (List.mem_cons_of_mem x ha))
      simp only [List.map_cons, List.sum_cons]
      exact add_lt_add h1 h2

/-- Helper: a strict pointwise bound gives a strict bound on the mean of
a map over a non-empty range. -/
lemma pd_mean_map_lt (n : ℕ) (hn : 1 ≤ n) (f g : ℕ → ℝ)
    (h : ∀ i, f i < g i) :
    pd_mean ((List.range n).map f) < pd_mean ((List.range n).map g) := by
  unfold pd_mean
  rw [List.length_map, List.length_range, List.length_map, List.length_range]
  have hne : List.range n ≠ [] := by
    simp only [ne_eq, List.range_eq_nil]
    omega
  have hsum := sum_map_lt (List.range n) f g hne (fun a _ => h a)
  have hn0 : (0:ℝ) < n := by
    have : 0 < n := hn
    exact_mod_cast this
  exact (div_lt_div_right hn0).2 hsum

/-- Helper: increasing only the temperature strictly lowers the average
residual moisture over the whole table. -/
lemma avg_lt_of_temp_lt (p : Params) (h50 : 50 < p.peso_humedo)
    (hva : 0 < p.velocidad_aire) (htr : 0 < p.tiempo_residencia)
    (hh : p.humedad_aire < 100) (hn : 1 ≤ p.num_lineas)
    (T₁ T₂ : ℝ) (hT1 : 0 < T₁) (h12 : T₁ < T₂) :
    pd_mean (run_industrial_simulation (setTemp p T₂)).humedades <
    pd_mean (run_industrial_simulation (setTemp p T₁)).humedades := by
  show pd_mean ((List.range p.num_lineas).map (linea_humedad (setTemp p T₂))) <
    pd_mean ((List.range p.num_lineas).map (linea_humedad (setTemp p T₁)))
  exact pd_mean_map_lt p.num_lineas hn _ _
    (fun i => linea_humedad_lt_of_temp_lt p h50 hva htr hh T₁ T₂ hT1 h12 i)

/-- Helper: indexing into the simulated table yields the per-line value. -/
lemma humedades_getD (p : Params) (i : ℕ) (h : i < p.num_lineas) :
    (run_industrial_simulation p).humedades.getD i 0 = linea_humedad p i := by
  show ((List.range p.num_lineas).map (linea_humedad p)).getD i 0 = _
  rw [List.getD_eq_getElem?_getD, List.getElem?_map, List.getElem?_range h]
  rfl

/-- C3: for two in-domain parameter records identical except for a
strictly larger `temperatura` in the second, the average residual
moisture of `simulate`'s output is strictly smaller for the second,
except when the 0 floor has been reached (both averages 0). -/
theorem avg_moisture_strict_anti_in_temp (p₁ p₂ : Params)
    (hv₁ : ValidParams p₁) (hv₂ : ValidParams p₂)
    (h50 : 50 < p₁.peso_humedo)
    (heq_peso : p₁.peso_humedo = p₂.peso_humedo)
    (heq_esp : p₁.espesor = p₂.espesor)
    (heq_vel : p₁.velocidad_aire = p₂.velocidad_aire)
    (heq_tr : p₁.tiempo_residencia = p₂.tiempo_residencia)
    (heq_hum : p₁.humedad_aire = p₂.humedad_aire)
    (heq_n : p₁.num_lineas = p₂.num_lineas)
    (hT : p₁.temperatura < p₂.temperatura) :
    pd_mean (run_industrial_simulation p₂).humedades <
      pd_mean (run_industrial_simulation p₁).humedades ∨
    (pd_mean (run_industrial_simulation p₁).humedades = 0 ∧
      pd_mean (run_industrial_simulation p₂).humedades = 0) := by
  left
  obtain ⟨hw1, -, -, -, ht1, -, hva1, -, htr1, -, -, hh2, hn1, -⟩ := hv₁
  have hp2 : p₂ = setTemp p₁ p₂.temperatura := by
    obtain ⟨a₁, b₁, c₁, d₁, e₁, f₁, g₁⟩ := p₁
    obtain ⟨a₂, b₂, c₂, d₂, e₂, f₂, g₂⟩ := p₂
    simp only at heq_peso heq_esp heq_vel heq_tr heq_hum heq_n
    subst heq_peso; subst heq_esp; subst heq_vel
    subst heq_tr; subst heq_hum; subst heq_n
    rfl
  have h := avg_lt_of_temp_lt p₁ h50 (by linarith) (by linarith) (by linarith)
    (by omega) p₁.temperatura p₂.temperatura (by linarith) hT
  rw [setTemp_self] at h
  rw [hp2]
  exact h

/-- Witness for C3: the reference scenario at temperatures 135 and 150. -/
theorem avg_moisture_strict_anti_in_temp_witness :
    pd_mean (run_industrial_simulation ⟨240, 3, 150, 1.5, 10, 50, 6⟩).humedades <
      pd_mean (run_industrial_simulation p_ref).humedades ∨
    (pd_mean (run_industrial_simulation p_ref).humedades = 0 ∧
      pd_mean (run_industrial_simulation ⟨240, 3, 150, 1.5, 10, 50, 6⟩).humedades = 0) :=
  avg_moisture_strict_anti_in_temp p_ref ⟨240, 3, 150, 1.5, 10, 50, 6⟩
    (by norm_num [ValidParams, p_ref]) (by norm_num [ValidParams])
    (by norm_num [p_ref]) rfl rfl rfl rfl rfl rfl (by norm_num [p_ref])

/-- Helper: per-line moisture is antitone in the uniformity factor (a
smaller factor evaporates less water and leaves more moisture). -/
lemma linea_humedad_anti_uf (p : Params) (h50 : 50 < p.peso_humedo)
    (ht : 0 < p.temperatura) (hva : 0 < p.velocidad_aire)
    (htr : 0 < p.tiempo_residencia) (hh : p.humedad_aire < 100) (i j : ℕ)
    (huf : uniformity_factor p.num_lineas i ≤ uniformity_factor p.num_lineas j) :
    linea_humedad p j ≤ linea_humedad p i := by
  obtain ⟨hwp, -⟩ := water_evaporated_base_bounds p h50 ht hva htr hh
  have hfwi := final_water_pos p h50 ht hva htr hh i
  have hfwj := final_water_pos p h50 ht hva htr hh j
  have hji : initial_water_mass p -
        water_evaporated_base p * uniformity_factor p.num_lineas j ≤
      initial_water_mass p -
        water_evaporated_base p * uniformity_factor p.num_lineas i := by
    have := mul_le_mul_of_nonneg_left huf hwp.le
    linarith
  have hD : (0:ℝ) < DRY_WEIGHT_G := by norm_num [DRY_WEIGHT_G]
  rw [linea_humedad_def, linea_humedad_def]
  exact max_le_max le_rfl
    (ratio_le_ratio _ _ _ hD (by linarith) (by linarith) hji)

/-- C4: for every valid ProcessParameters, an edge line (index 0 or
`numLines - 1`) carries at least as much residual moisture as every
interior line of the same run. -/
theorem edge_moisture_ge_interior (p : Params) (hv : ValidParams p)
    (h50 : 50 < p.peso_humedo) (i j : ℕ)
    (hi : i = 0 ∨ i = p.num_lineas - 1)
    (hj1 : j ≠ 0) (hj2 : j ≠ p.num_lineas - 1) (hj : j < p.num_lineas) :
    (run_industrial_simulation p).humedades.getD j 0 ≤
    (run_industrial_simulation p).humedades.getD i 0 := by
  obtain ⟨-, -, -, -, ht1, -, hva1, -, htr1, -, -, hh2, hn1, -⟩ := hv
  have hi_lt : i < p.num_lineas := by omega
  rw [humedades_getD p i hi_lt, humedades_getD p j hj]
  have hufi : uniformity_factor p.num_lineas i = 0.85 := by
    unfold uniformity_factor
    rw [if_pos hi]
  have huf_le : uniformity_factor p.num_lineas i ≤
      uniformity_factor p.num_lineas j := by
    rw [hufi]
    exact uf_ge _ _
  exact linea_humedad_anti_uf p h50 (by linarith) (by linarith) (by linarith)
    (by linarith) i j huf_le

/-- Witness for C4: reference scenario, edge line 0 versus interior line 2. -/
theorem edge_moisture_ge_interior_witness :
    (run_industrial_simulation p_ref).humedades.getD 2 0 ≤
    (run_industrial_simulation p_ref).humedades.getD 0 0 :=
  edge_moisture_ge_interior p_ref (by norm_num [ValidParams, p_ref])
    (by norm_num [p_ref]) 0 2 (Or.inl rfl)
    (by norm_num) (by norm_num [p_ref]) (by norm_num [p_ref])

/-- C10: the moisture profile is mirror-symmetric about the dryer centre:
line `i` and line `numLines - 1 - i` carry the same residual moisture. -/
theorem moisture_profile_symmetric (p : Params) (hv : ValidParams p)
    (i : ℕ) (hi : i < p.num_lineas) :
    (run_industrial_simulation p).humedades.getD i 0 =
    (run_industrial_simulation p).humedades.getD (p.num_lineas - 1 - i) 0 := by
  have hi' : p.num_lineas - 1 - i < p.num_lineas := by omega
  rw [humedades_getD p i hi, humedades_getD p _ hi']
  rw [linea_humedad_def, linea_humedad_def, uf_symm p.num_lineas i hi]

/-- Witness for C10: reference scenario, lines 1 and 4. -/
theorem moisture_profile_symmetric_witness :
    ValidParams p_ref ∧
    (run_industrial_simulation p_ref).humedades.getD 1 0 =
      (run_industrial_simulation p_ref).humedades.getD 4 0 := by
  have hv : ValidParams p_ref := by norm_num [ValidParams, p_ref]
  exact ⟨hv, moisture_profile_symmetric p_ref hv 1 (by norm_num [p_ref])⟩

/-- Helper: closed form for an entry of the sweep curve. -/
lemma sweep_getD (p : Params) (lo hi : ℝ) (n i : ℕ) (h : i < n) :
    (sweep_temperatura p lo hi n).getD i ((0:ℝ), (0:ℝ)) =
      (lo + i * (hi - lo) / ((n : ℝ) - 1),
       pd_mean (run_industrial_simulation
         (setTemp p (lo + i * (hi - lo) / ((n : ℝ) - 1)))).humedades) := by
  unfold sweep_temperatura linspace
  rw [List.getD_eq_getElem?_getD, List.map_map, List.getElem?_map,
    List.getElem?_range h]
  rfl

/-- C6: sweeping `temperatura` from 80 to 180 in 20 samples yields exactly
20 pairs; the swept values follow the even `80 + i * 100 / 19` spacing
with both endpoints included and are strictly ascending; each second
component is the mean residual moisture of `simulate` rerun with the
swept temperature; and the averages are non-increasing along the curve. -/
theorem sweep_temperatura_curve (p : Params) (hv : ValidParams p) :
    (sweep_temperatura p 80 180 20).length = 20 ∧
    (∀ i : ℕ, i < 20 → (sweep_temperatura p 80 180 20).getD i ((0:ℝ), (0:ℝ)) =
      (80 + (i : ℝ) * 100 / 19,
       pd_mean (run_industrial_simulation
         (setTemp p (80 + (i : ℝ) * 100 / 19))).humedades)) ∧
    ((sweep_temperatura p 80 180 20).getD 0 ((0:ℝ), (0:ℝ))).1 = 80 ∧
    ((sweep_temperatura p 80 180 20).getD 19 ((0:ℝ), (0:ℝ))).1 = 180 ∧
    (∀ i : ℕ, i + 1 < 20 →
      ((sweep_temperatura p 80 180 20).getD i ((0:ℝ), (0:ℝ))).1 <
      ((sweep_temperatura p 80 180 20).getD (i + 1) ((0:ℝ), (0:ℝ))).1) ∧
    (∀ i : ℕ, i + 1 < 20 →
      ((sweep_temperatura p 80 180 20).getD (i + 1) ((0:ℝ), (0:ℝ))).2 ≤
      ((sweep_temperatura p 80 180 20).getD i ((0:ℝ), (0:ℝ))).2) := by
  obtain ⟨hw1, -, -, -, -, -, hva1, -, htr1, -, -, hh2, hn1, -⟩ := hv
  have key : ∀ i : ℕ, i < 20 →
      (sweep_temperatura p 80 180 20).getD i ((0:ℝ), (0:ℝ)) =
      (80 + (i : ℝ) * 100 / 19,
       pd_mean (run_industrial_simulation
         (setTemp p (80 + (i : ℝ) * 100 / 19))).humedades) := by
    intro i h
    rw [sweep_getD p 80 180 20 i h]
    norm_num
  have hstep : ∀ i : ℕ,
      (80 + (i : ℝ) * 100 / 19) < 80 + ((i : ℝ) + 1) * 100 / 19 := by
    intro i
    have h19 : (0:ℝ) < 19 := by norm_num
    have : (i : ℝ) * 100 < ((i : ℝ) + 1) * 100 := by nlinarith
    have := (div_lt_div_right h19).2 this
    linarith
  have hpos : ∀ i : ℕ, (0:ℝ) < 80 + (i : ℝ) * 100 / 19 := by
    intro i
    have h0 : (0:ℝ) ≤ (i : ℝ) * 100 / 19 := by positivity
    linarith
  refine ⟨?_, key, ?_, ?_, ?_, ?_⟩
  · unfold sweep_temperatura linspace
    rw [List.length_map, List.length_map, List.length_range]
  · rw [key 0 (by norm_num)]
    norm_num
  · rw [key 19 (by norm_num)]
    norm_num
  · intro i h
    rw [key i (by omega), key (i + 1) (by omega)]
    have := hstep i
    push_cast
    simpa using this
  · intro i h
    rw [key i (by omega), key (i + 1) (by omega)]
    have hlt := avg_lt_of_temp_lt p (by linarith) (by linarith) (by linarith)
      (by linarith) (by omega) (80 + (i : ℝ) * 100 / 19)
      (80 + ((i : ℝ) + 1) * 100 / 19) (hpos i) (hstep i)
    have hcast : ((i + 1 : ℕ) : ℝ) = (i : ℝ) + 1 := by push_cast; ring
    simp only [hcast]
    exact le_of_lt hlt

/-- Witness for C6 at the reference scenario. -/
theorem sweep_temperatura_curve_witness :
    ValidParams p_ref ∧ (sweep_temperatura p_ref 80 180 20).length = 20 := by
  have hv : ValidParams p_ref := by norm_num [ValidParams, p_ref]
  exact ⟨hv, (sweep_temperatura_curve p_ref hv).1⟩
